import Mathlib

/-!
Shallow embedding of the EasyParkPlus parking-lot manager core
(`src/ParkingManager.py`, `src/Vehicle.py`).

Modelling conventions:
* The Python `Vehicle` class hierarchy (Car / Motorcycle / ElectricCar /
  ElectricMotorcycle, built by `VehicleFactory.create_vehicle`) is collapsed
  into one record carrying the two boolean flags the factory dispatches on;
  `isinstance(v, ElectricVehicle)` becomes the `is_electric` field, which is
  exactly how the factory decides which subclass to build.
* `EMPTY_SLOT = None` becomes `Option Vehicle` with `none` for an empty slot.
* Python `int` becomes `Int` (capacities and slot numbers may be negative).
* `[EMPTY_SLOT] * n` for an `Int` `n` is `List.replicate n.toNat none`
  (Python yields `[]` for `n <= 0`).
* Observer notification has no influence on the core state; each mutating
  method returns, besides the successor state and its Python return value,
  the list of `(event type, message)` pairs it would broadcast, with the
  messages built exactly as the source's f-strings build them.
* Python methods that never assign to `self` are still given a
  state-passing type `ParkingLot -> ... -> ParkingLot × result` returning
  the state the method leaves behind, so that frame properties are statable.
-/

/-- Collapsed form of the `Vehicle` hierarchy of `src/Vehicle.py`.
`charge` is the `ElectricVehicle._charge` attribute (meaningful only when
`is_electric` is true; the factory always constructs electric vehicles with
the default `charge=0`). -/
structure Vehicle where
  registration_number : String
  make : String
  model : String
  color : String
  is_electric : Bool
  is_motorcycle : Bool
  charge : Int
deriving DecidableEq

/-- `Vehicle.regnum` property: alias of `registration_number`. -/
def Vehicle.regnum (v : Vehicle) : String := v.registration_number

/-- `get_type`: `Car`/`ElectricCar` report "Car", `Motorcycle`/`ElectricMotorcycle`
report "Motorcycle"; with the collapsed record this is dispatch on the flag. -/
def Vehicle.get_type (v : Vehicle) : String :=
  if v.is_motorcycle then "Motorcycle" else "Car"

/-- `VehicleFactory.create_vehicle`: builds the vehicle the four-way dispatch
on `(is_electric, is_motorcycle)` produces; electric vehicles get the
constructor default `charge = 0`. -/
def VehicleFactory.create_vehicle (registration_number make model color : String)
    (is_electric is_motorcycle : Bool) : Vehicle :=
  { registration_number := registration_number
    make := make
    model := model
    color := color
    is_electric := is_electric
    is_motorcycle := is_motorcycle
    charge := 0 }

/-- The `charge` property setter of `ElectricVehicle`:
`self._charge = max(0, min(100, value))`. -/
def ElectricVehicle.set_charge (v : Vehicle) (value : Int) : Vehicle :=
  { v with charge := max 0 (min 100 value) }

/-- `ParkingEventType` enum. -/
inductive ParkingEventType where
  | LOT_CREATED
  | VEHICLE_PARKED
  | VEHICLE_REMOVED
  | PARKING_FAILED
  | REMOVAL_FAILED
deriving DecidableEq

/-- An event as handed to `notify_observers`: type tag plus message string. -/
abbrev ParkingEvent := ParkingEventType × String

/-- `StandardParkingStrategy.can_park`:
`not isinstance(vehicle, ElectricVehicle) and occupied_count < capacity`. -/
def StandardParkingStrategy.can_park (vehicle : Vehicle) (occupied_count : Nat)
    (capacity : Int) : Bool :=
  !vehicle.is_electric && (occupied_count : Int) < capacity

/-- `EVParkingStrategy.can_park`:
`isinstance(vehicle, ElectricVehicle) and occupied_count < capacity`. -/
def EVParkingStrategy.can_park (vehicle : Vehicle) (occupied_count : Nat)
    (capacity : Int) : Bool :=
  vehicle.is_electric && (occupied_count : Int) < capacity

/-- `find_empty_slot` (identical body in both strategies): enumerate the
slots, return the first index holding `EMPTY_SLOT`, else `-1`. -/
def find_empty_slot : List (Option Vehicle) → Int
  | [] => -1
  | none :: _ => 0
  | some _ :: rest =>
      let r := find_empty_slot rest
      if r < 0 then -1 else r + 1

/-- `sum(1 for slot in slots if slot is not EMPTY_SLOT)` as used by
`park_vehicle` (the spec's `occupied_count`, recomputed on demand). -/
def occupied_count (slots : List (Option Vehicle)) : Nat :=
  slots.countP (fun slot => slot.isSome)

/-- State of a `ParkingLot` instance: exactly the observable fields
(`level`, the two capacities, the two slot lists, `is_initialized`).
The strategy objects are stateless and the observer list does not
influence the core, so neither is part of the state. -/
structure ParkingLot where
  level : Int
  regular_capacity : Int
  ev_capacity : Int
  regular_slots : List (Option Vehicle)
  ev_slots : List (Option Vehicle)
  is_initialized : Bool
deriving DecidableEq

/-- `ParkingLot.__init__`: the fresh, uncreated lot. -/
def ParkingLot.init : ParkingLot :=
  { level := 0
    regular_capacity := 0
    ev_capacity := 0
    regular_slots := []
    ev_slots := []
    is_initialized := false }

/-- `ParkingLot.create_parking_lot`: overwrites capacities and level,
rebuilds both slot lists, sets `is_initialized` and emits `LOT_CREATED`. -/
def ParkingLot.create_parking_lot (lot : ParkingLot)
    (regular_capacity ev_capacity level : Int) : ParkingLot × List ParkingEvent :=
  ({ lot with
      regular_capacity := regular_capacity
      ev_capacity := ev_capacity
      level := level
      regular_slots := List.replicate regular_capacity.toNat none
      ev_slots := List.replicate ev_capacity.toNat none
      is_initialized := true },
   [(ParkingEventType.LOT_CREATED,
     "Created parking lot with " ++ toString regular_capacity ++
     " regular slots and " ++ toString ev_capacity ++
     " EV slots on level " ++ toString level)])

/-- `ParkingLot.park_vehicle`. Returns the successor state, the Python
return value (1-based slot number on success, `-1` on failure) and the
emitted events. The `try/except` wrapper is dropped: no statement in the
guarded block raises (`VehicleFactory.create_vehicle` is total and the
list write is guarded by `slot_index >= 0` with `slot_index` obtained
from `find_empty_slot`). The method's pure local variables (`vehicle`,
`occupied_count`, `slot_index`, `slot_number`) are inlined at their use
sites. -/
def ParkingLot.park_vehicle (lot : ParkingLot)
    (registration_number make model color : String)
    (is_electric is_motorcycle : Bool) : ParkingLot × Int × List ParkingEvent :=
  if lot.is_initialized = false then
    (lot, -1, [(ParkingEventType.PARKING_FAILED, "Please create parking lot first")])
  else
    if (VehicleFactory.create_vehicle registration_number make model color
        is_electric is_motorcycle).is_electric then
      if EVParkingStrategy.can_park
          (VehicleFactory.create_vehicle registration_number make model color
            is_electric is_motorcycle)
          (occupied_count lot.ev_slots) lot.ev_capacity then
        if 0 ≤ find_empty_slot lot.ev_slots then
          ({ lot with ev_slots :=
              (lot.ev_slots.set (find_empty_slot lot.ev_slots).toNat
                (some (VehicleFactory.create_vehicle registration_number make model color
                  is_electric is_motorcycle))) },
           find_empty_slot lot.ev_slots + 1,
           [(ParkingEventType.VEHICLE_PARKED,
             "Allocated EV slot number: " ++ toString (find_empty_slot lot.ev_slots + 1) ++
             " for " ++
             (VehicleFactory.create_vehicle registration_number make model color
               is_electric is_motorcycle).get_type ++ " - " ++ registration_number)])
        else
          (lot, -1, [(ParkingEventType.PARKING_FAILED, "Sorry, EV parking lot is full")])
      else
        (lot, -1, [(ParkingEventType.PARKING_FAILED, "Sorry, EV parking lot is full")])
    else
      if StandardParkingStrategy.can_park
          (VehicleFactory.create_vehicle registration_number make model color
            is_electric is_motorcycle)
          (occupied_count lot.regular_slots) lot.regular_capacity then
        if 0 ≤ find_empty_slot lot.regular_slots then
          ({ lot with regular_slots :=
              (lot.regular_slots.set (find_empty_slot lot.regular_slots).toNat
                (some (VehicleFactory.create_vehicle registration_number make model color
                  is_electric is_motorcycle))) },
           find_empty_slot lot.regular_slots + 1,
           [(ParkingEventType.VEHICLE_PARKED,
             "Allocated regular slot number: " ++
             toString (find_empty_slot lot.regular_slots + 1) ++ " for " ++
             (VehicleFactory.create_vehicle registration_number make model color
               is_electric is_motorcycle).get_type ++ " - " ++ registration_number)])
        else
          (lot, -1, [(ParkingEventType.PARKING_FAILED, "Sorry, regular parking lot is full")])
      else
        (lot, -1, [(ParkingEventType.PARKING_FAILED, "Sorry, regular parking lot is full")])

/-- `ParkingLot.remove_vehicle`. Returns the successor state, the Python
return value (`True`/`False`) and the emitted events. Note the source
returns a boolean, never the vehicle; the removed vehicle's registration
appears only in the `VEHICLE_REMOVED` message. The `try/except` is dropped:
the indexing is guarded by the bounds test of the same condition. The
method's pure local variables (`slot_index`, `slots`, `slot_type`,
`new_slots`, `new_lot`) are inlined at their use sites; Python's in-place
write `slots[slot_index] = EMPTY_SLOT` mutates the list object the selected
field holds, hence the write-back into that same field. -/
def ParkingLot.remove_vehicle (lot : ParkingLot) (slot_number : Int)
    (is_ev_slot : Bool) : ParkingLot × Bool × List ParkingEvent :=
  if 0 ≤ slot_number - 1 ∧
      slot_number - 1 <
        (((if is_ev_slot then lot.ev_slots else lot.regular_slots)).length : Int) ∧
      ((if is_ev_slot then lot.ev_slots else lot.regular_slots).getD
        (slot_number - 1).toNat none).isSome then
    match (if is_ev_slot then lot.ev_slots else lot.regular_slots).getD
        (slot_number - 1).toNat none with
    | some vehicle =>
        ((if is_ev_slot then
            { lot with ev_slots :=
                ((if is_ev_slot then lot.ev_slots else lot.regular_slots).set
                  (slot_number - 1).toNat none) }
          else
            { lot with regular_slots :=
                ((if is_ev_slot then lot.ev_slots else lot.regular_slots).set
                  (slot_number - 1).toNat none) }),
         true,
         [(ParkingEventType.VEHICLE_REMOVED,
           "Slot number " ++ toString slot_number ++ " (" ++
           (if is_ev_slot then "EV" else "regular") ++
           ") is now free - was " ++ vehicle.regnum)])
    | none =>
        (lot, false,
         [(ParkingEventType.REMOVAL_FAILED,
           "Unable to remove vehicle from " ++ (if is_ev_slot then "EV" else "regular") ++
           " slot " ++ toString slot_number)])
  else
    (lot, false,
     [(ParkingEventType.REMOVAL_FAILED,
       "Unable to remove vehicle from " ++ (if is_ev_slot then "EV" else "regular") ++
       " slot " ++ toString slot_number)])

/-- The `enumerate`-and-filter comprehension of `get_all_regular_vehicles` /
`get_all_ev_vehicles`: `(i+1, vehicle)` for every occupied slot, in order. -/
def vehicles_with_slots (slots : List (Option Vehicle)) : List (Int × Vehicle) :=
  (slots.enum.filterMap fun p => p.2.map fun v => ((p.1 : Int) + 1, v))

/-- `ParkingLot.get_all_regular_vehicles` (reads `self`, assigns nothing). -/
def ParkingLot.get_all_regular_vehicles (lot : ParkingLot) :
    ParkingLot × List (Int × Vehicle) :=
  (lot, vehicles_with_slots lot.regular_slots)

/-- `ParkingLot.get_all_ev_vehicles` (reads `self`, assigns nothing). -/
def ParkingLot.get_all_ev_vehicles (lot : ParkingLot) :
    ParkingLot × List (Int × Vehicle) :=
  (lot, vehicles_with_slots lot.ev_slots)

/-- One `for i, vehicle in enumerate(slots)` loop of
`find_slot_by_registration`: 0-based index of the first occupied slot whose
occupant's `regnum` equals `registration`, else `none`. -/
def find_in_slots : List (Option Vehicle) → String → Option Nat
  | [], _ => none
  | none :: rest, registration =>
      (find_in_slots rest registration).map (· + 1)
  | some v :: rest, registration =>
      if v.regnum == registration then some 0
      else (find_in_slots rest registration).map (· + 1)

/-- `ParkingLot.find_slot_by_registration`. The Python dict
`{"slot_number": i+1, "type": t, "found": True}` is `some (i+1, t)`;
`{"found": False}` is `none`. Regular slots are scanned before EV slots. -/
def ParkingLot.find_slot_by_registration (lot : ParkingLot)
    (registration : String) : ParkingLot × Option (Int × String) :=
  (lot,
   match find_in_slots lot.regular_slots registration with
   | some i => some ((i : Int) + 1, "regular")
   | none =>
     match find_in_slots lot.ev_slots registration with
     | some i => some ((i : Int) + 1, "EV")
     | none => none)

/-- `ParkingLot.find_vehicles_by_color`: the two case-insensitive exact-match
comprehensions, returned as (regular list, ev list). -/
def ParkingLot.find_vehicles_by_color (lot : ParkingLot) (color : String) :
    ParkingLot × List (Int × Vehicle) × List (Int × Vehicle) :=
  (lot,
   (lot.regular_slots.enum.filterMap fun p =>
     p.2.bind fun v =>
       if v.color.toLower == color.toLower then some ((p.1 : Int) + 1, v) else none),
   (lot.ev_slots.enum.filterMap fun p =>
     p.2.bind fun v =>
       if v.color.toLower == color.toLower then some ((p.1 : Int) + 1, v) else none))

/-- States reachable from a fresh `ParkingLot()` by the public mutating
operations (queries do not change the state, see `C10`). -/
inductive Reachable : ParkingLot → Prop where
  | init : Reachable ParkingLot.init
  | create (s : ParkingLot) (rc ec lv : Int) :
      Reachable s → Reachable (s.create_parking_lot rc ec lv).1
  | park (s : ParkingLot) (reg mk md c : String) (e m : Bool) :
      Reachable s → Reachable (s.park_vehicle reg mk md c e m).1
  | remove (s : ParkingLot) (n : Int) (ev : Bool) :
      Reachable s → Reachable (s.remove_vehicle n ev).1

/-- No occupant of `slots` carries `registration`. -/
def no_registration (slots : List (Option Vehicle)) (registration : String) : Prop :=
  ∀ v : Vehicle, some v ∈ slots → v.regnum ≠ registration

/-- The success condition of `remove_vehicle`: 1-based `slot_number` converts
to an in-range 0-based index of an occupied slot of the selected pool. -/
def valid_removal (s : ParkingLot) (slot_number : Int) (is_ev_slot : Bool) : Prop :=
  0 ≤ slot_number - 1 ∧
  slot_number - 1 < (((if is_ev_slot then s.ev_slots else s.regular_slots)).length : Int) ∧
  ((if is_ev_slot then s.ev_slots else s.regular_slots).getD
    (slot_number - 1).toNat none).isSome

/-- `valid_removal` is a concrete conjunction of decidable tests. -/
instance valid_removal_decidable (s : ParkingLot) (n : Int) (ev : Bool) :
    Decidable (valid_removal s n ev) := by
  unfold valid_removal
  infer_instance

/-- Structural invariant of every reachable state: each pool holds exactly
`capacity.toNat` slots (`[EMPTY_SLOT] * n` of the last `create_parking_lot`,
empty lists for the fresh lot). -/
def WF (s : ParkingLot) : Prop :=
  s.regular_slots.length = s.regular_capacity.toNat ∧
  s.ev_slots.length = s.ev_capacity.toNat


/-! Helper lemmas about the slot-scanning primitives. -/

/-- If some slot is empty, the linear scan returns a non-negative index. -/
theorem find_empty_slot_nonneg_of_mem {slots : List (Option Vehicle)}
    (h : none ∈ slots) : 0 ≤ find_empty_slot slots := by
  induction slots with
  | nil => cases h
  | cons a rest ih =>
    cases a with
    | none => simp [find_empty_slot]
    | some v =>
      rcases List.mem_cons.mp h with h1 | h2
      · cases h1
      · have hr := ih h2
        simp only [find_empty_slot]
        rw [if_neg (by omega)]
        omega

/-- When the scan succeeds, it returns an in-range index of an empty slot all
of whose predecessors are occupied: first-fit. -/
theorem find_empty_slot_spec {slots : List (Option Vehicle)}
    (h : 0 ≤ find_empty_slot slots) :
    (find_empty_slot slots).toNat < slots.length ∧
    slots.getD (find_empty_slot slots).toNat none = none ∧
    ∀ j < (find_empty_slot slots).toNat, (slots.getD j none).isSome := by
  induction slots with
  | nil => simp [find_empty_slot] at h
  | cons a rest ih =>
    cases a with
    | none =>
      refine ⟨by simp [find_empty_slot], by simp [find_empty_slot], ?_⟩
      intro j hj
      simp [find_empty_slot] at hj
    | some v =>
      by_cases hr : find_empty_slot rest < 0
      · exfalso
        simp only [find_empty_slot] at h
        rw [if_pos hr] at h
        omega
      · push_neg at hr
        obtain ⟨h1, h2, h3⟩ := ih hr
        have hfe : find_empty_slot (some v :: rest) = find_empty_slot rest + 1 := by
          simp only [find_empty_slot]
          rw [if_neg (by omega)]
        have htn : (find_empty_slot rest + 1).toNat = (find_empty_slot rest).toNat + 1 := by
          omega
        rw [hfe, htn]
        refine ⟨by simpa using h1, by simpa using h2, ?_⟩
        intro j hj
        cases j with
        | zero => simp
        | succ j' =>
          simpa using h3 j' (by omega)

/-- A pool containing an empty slot has strictly fewer occupants than slots. -/
theorem occupied_count_lt_length_of_mem {slots : List (Option Vehicle)}
    (h : none ∈ slots) : occupied_count slots < slots.length := by
  induction slots with
  | nil => cases h
  | cons a rest ih =>
    cases a with
    | none =>
      have hle := List.countP_le_length (p := fun slot : Option Vehicle => slot.isSome)
        (l := rest)
      simp [occupied_count, List.countP_cons]
      omega
    | some v =>
      rcases List.mem_cons.mp h with h1 | h2
      · cases h1
      · have := ih h2
        simp only [occupied_count] at this ⊢
        simp [List.countP_cons]
        omega

/-- Occupancy never exceeds the number of slots. -/
theorem occupied_count_le_length (slots : List (Option Vehicle)) :
    occupied_count slots ≤ slots.length :=
  List.countP_le_length _

/-- Clearing an index leaves that index empty (also when out of range, where
`getD`'s default is already `none`). -/
theorem getD_set_self (l : List (Option Vehicle)) (i : Nat) :
    (l.set i none).getD i none = none := by
  induction l generalizing i with
  | nil => simp
  | cons a rest ih =>
    cases i with
    | zero => simp
    | succ i' => simpa using ih i'

/-- Writing one index leaves every other index unchanged: no compaction. -/
theorem getD_set_ne (l : List (Option Vehicle)) (i j : Nat) (x : Option Vehicle)
    (h : j ≠ i) : (l.set i x).getD j none = l.getD j none := by
  induction l generalizing i j with
  | nil => simp
  | cons a rest ih =>
    cases i with
    | zero =>
      cases j with
      | zero => exact absurd rfl h
      | succ j' => simp
    | succ i' =>
      cases j with
      | zero => simp
      | succ j' => simpa using ih i' j' (by omega)

/-! Lemmas about the registration scan. -/

/-- The scan misses when no occupant matches. -/
theorem find_in_slots_eq_none {slots : List (Option Vehicle)} {registration : String}
    (h : no_registration slots registration) :
    find_in_slots slots registration = none := by
  induction slots with
  | nil => rfl
  | cons a rest ih =>
    have hrest : no_registration rest registration := fun v hv =>
      h v (List.mem_cons_of_mem _ hv)
    cases a with
    | none =>
      simp only [find_in_slots]
      rw [ih hrest]
      rfl
    | some v =>
      have hv : v.regnum ≠ registration := h v (List.mem_cons_self _ _)
      simp only [find_in_slots]
      rw [if_neg (by simpa using hv)]
      rw [ih hrest]
      rfl

/-- Writing a matching vehicle into index `k` of a pool with no other match
makes the scan stop exactly at `k`. -/
theorem find_in_slots_set {slots : List (Option Vehicle)} {registration : String}
    (h : no_registration slots registration) :
    ∀ k, k < slots.length → ∀ v : Vehicle, v.regnum = registration →
      find_in_slots (slots.set k (some v)) registration = some k := by
  induction slots with
  | nil =>
    intro k hk
    simp at hk
  | cons a rest ih =>
    intro k hk v hv
    have hrest : no_registration rest registration := fun w hw =>
      h w (List.mem_cons_of_mem _ hw)
    cases k with
    | zero =>
      simp only [List.set]
      simp only [find_in_slots]
      rw [if_pos (by simpa using hv)]
    | succ k' =>
      have hk' : k' < rest.length := by simpa using hk
      simp only [List.set]
      cases a with
      | none =>
        simp only [find_in_slots]
        rw [ih hrest k' hk' v hv]
        rfl
      | some w =>
        have hw : w.regnum ≠ registration := h w (List.mem_cons_self _ _)
        simp only [find_in_slots]
        rw [if_neg (by simpa using hw)]
        rw [ih hrest k' hk' v hv]
        rfl

/-! Characterizations of `remove_vehicle`. -/

/-- On an invalid target, `remove_vehicle` fails: unchanged state, `False`
return, one `REMOVAL_FAILED` event. -/
theorem remove_not_valid {s : ParkingLot} {n : Int} {ev : Bool}
    (h : ¬ valid_removal s n ev) :
    s.remove_vehicle n ev = (s, false,
      [(ParkingEventType.REMOVAL_FAILED,
        "Unable to remove vehicle from " ++ (if ev then "EV" else "regular") ++
        " slot " ++ toString n)]) := by
  unfold valid_removal at h
  unfold ParkingLot.remove_vehicle
  rw [if_neg h]

/-- On a valid target, `remove_vehicle` clears the slot and returns `True`
with one `VEHICLE_REMOVED` event naming the removed vehicle's registration. -/
theorem remove_valid {s : ParkingLot} {n : Int} {ev : Bool}
    (h : valid_removal s n ev) :
    ∃ v : Vehicle,
      (if ev then s.ev_slots else s.regular_slots).getD (n - 1).toNat none = some v ∧
      s.remove_vehicle n ev =
        ((if ev then { s with ev_slots :=
            (if ev then s.ev_slots else s.regular_slots).set (n - 1).toNat none }
          else { s with regular_slots :=
            (if ev then s.ev_slots else s.regular_slots).set (n - 1).toNat none }),
         true,
         [(ParkingEventType.VEHICLE_REMOVED,
           "Slot number " ++ toString n ++ " (" ++ (if ev then "EV" else "regular") ++
           ") is now free - was " ++ v.regnum)]) := by
  obtain ⟨v, hv⟩ := Option.isSome_iff_exists.mp h.2.2
  refine ⟨v, hv, ?_⟩
  unfold valid_removal at h
  unfold ParkingLot.remove_vehicle
  rw [if_pos h, hv]

/-! Characterizations of `park_vehicle`. -/

/-- Parking on an uncreated lot fails immediately with the not-initialized
message, leaving the state unchanged. -/
theorem park_not_initialized {s : ParkingLot} (h : s.is_initialized = false)
    (reg mk md c : String) (e m : Bool) :
    s.park_vehicle reg mk md c e m =
      (s, -1, [(ParkingEventType.PARKING_FAILED, "Please create parking lot first")]) := by
  unfold ParkingLot.park_vehicle
  rw [if_pos h]

/-- Evaluation of a successful `park_vehicle`: under the initialized flag,
a strict occupancy bound and a found empty slot, the vehicle is written to
the first empty index of the pool selected by `is_electric` and the 1-based
slot number is returned. -/
theorem park_run {s : ParkingLot} (reg mk md c : String) (e m : Bool)
    (hinit : s.is_initialized = true)
    (hcan : (occupied_count (if e then s.ev_slots else s.regular_slots) : Int) <
      (if e then s.ev_capacity else s.regular_capacity))
    (hfind : 0 ≤ find_empty_slot (if e then s.ev_slots else s.regular_slots)) :
    s.park_vehicle reg mk md c e m =
      (if e then
        ({ s with ev_slots :=
            (s.ev_slots.set (find_empty_slot s.ev_slots).toNat
              (some (VehicleFactory.create_vehicle reg mk md c e m))) },
         find_empty_slot s.ev_slots + 1,
         [(ParkingEventType.VEHICLE_PARKED,
           "Allocated EV slot number: " ++ toString (find_empty_slot s.ev_slots + 1) ++
           " for " ++ (VehicleFactory.create_vehicle reg mk md c e m).get_type ++
           " - " ++ reg)])
       else
        ({ s with regular_slots :=
            (s.regular_slots.set (find_empty_slot s.regular_slots).toNat
              (some (VehicleFactory.create_vehicle reg mk md c e m))) },
         find_empty_slot s.regular_slots + 1,
         [(ParkingEventType.VEHICLE_PARKED,
           "Allocated regular slot number: " ++
           toString (find_empty_slot s.regular_slots + 1) ++ " for " ++
           (VehicleFactory.create_vehicle reg mk md c e m).get_type ++
           " - " ++ reg)])) := by
  unfold ParkingLot.park_vehicle
  rw [if_neg (by simp [hinit])]
  cases e with
  | true =>
    have hev : (VehicleFactory.create_vehicle reg mk md c true m).is_electric = true := rfl
    rw [if_pos hev]
    have hc : EVParkingStrategy.can_park
        (VehicleFactory.create_vehicle reg mk md c true m)
        (occupied_count s.ev_slots) s.ev_capacity = true := by
      simp [EVParkingStrategy.can_park, VehicleFactory.create_vehicle]
      exact hcan
    rw [if_pos hc]
    rw [if_pos (show (0 : Int) ≤ find_empty_slot s.ev_slots from hfind)]
    rfl
  | false =>
    have hev : ¬ (VehicleFactory.create_vehicle reg mk md c false m).is_electric = true := by
      simp [VehicleFactory.create_vehicle]
    rw [if_neg hev]
    have hc : StandardParkingStrategy.can_park
        (VehicleFactory.create_vehicle reg mk md c false m)
        (occupied_count s.regular_slots) s.regular_capacity = true := by
      simp [StandardParkingStrategy.can_park, VehicleFactory.create_vehicle]
      exact hcan
    rw [if_pos hc]
    rw [if_pos (show (0 : Int) ≤ find_empty_slot s.regular_slots from hfind)]
    rfl

/-- Every run of `park_vehicle` either fails (returning `-1` with the state
untouched) or satisfies the preconditions of `park_run`. -/
theorem park_fail_or_success (s : ParkingLot) (reg mk md c : String) (e m : Bool) :
    ((s.park_vehicle reg mk md c e m).2.1 = -1 ∧ (s.park_vehicle reg mk md c e m).1 = s) ∨
    (s.is_initialized = true ∧
     (occupied_count (if e then s.ev_slots else s.regular_slots) : Int) <
       (if e then s.ev_capacity else s.regular_capacity) ∧
     0 ≤ find_empty_slot (if e then s.ev_slots else s.regular_slots)) := by
  by_cases hinit : s.is_initialized = false
  · left
    rw [park_not_initialized hinit]
    exact ⟨rfl, rfl⟩
  · have hinit' : s.is_initialized = true := by
      revert hinit; cases s.is_initialized <;> simp
    cases e with
    | true =>
      by_cases hcan : (occupied_count s.ev_slots : Int) < s.ev_capacity
      · by_cases hfind : 0 ≤ find_empty_slot s.ev_slots
        · right
          exact ⟨hinit', by simpa using hcan, by simpa using hfind⟩
        · left
          unfold ParkingLot.park_vehicle
          rw [if_neg (by simp [hinit'])]
          rw [if_pos (show (VehicleFactory.create_vehicle reg mk md c true m).is_electric
            = true from rfl)]
          rw [if_neg hfind]
          split
          · exact ⟨rfl, rfl⟩
          · exact ⟨rfl, rfl⟩
      · left
        unfold ParkingLot.park_vehicle
        rw [if_neg (by simp [hinit'])]
        rw [if_pos (show (VehicleFactory.create_vehicle reg mk md c true m).is_electric
          = true from rfl)]
        rw [if_neg (show ¬ EVParkingStrategy.can_park
          (VehicleFactory.create_vehicle reg mk md c true m)
          (occupied_count s.ev_slots) s.ev_capacity = true from by
            simp [EVParkingStrategy.can_park, VehicleFactory.create_vehicle]
            omega)]
        exact ⟨rfl, rfl⟩
    | false =>
      by_cases hcan : (occupied_count s.regular_slots : Int) < s.regular_capacity
      · by_cases hfind : 0 ≤ find_empty_slot s.regular_slots
        · right
          exact ⟨hinit', by simpa using hcan, by simpa using hfind⟩
        · left
          unfold ParkingLot.park_vehicle
          rw [if_neg (by simp [hinit'])]
          rw [if_neg (show ¬ (VehicleFactory.create_vehicle reg mk md c false m).is_electric
            = true from by simp [VehicleFactory.create_vehicle])]
          rw [if_neg hfind]
          split
          · exact ⟨rfl, rfl⟩
          · exact ⟨rfl, rfl⟩
      · left
        unfold ParkingLot.park_vehicle
        rw [if_neg (by simp [hinit'])]
        rw [if_neg (show ¬ (VehicleFactory.create_vehicle reg mk md c false m).is_electric
          = true from by simp [VehicleFactory.create_vehicle])]
        rw [if_neg (show ¬ StandardParkingStrategy.can_park
          (VehicleFactory.create_vehicle reg mk md c false m)
          (occupied_count s.regular_slots) s.regular_capacity = true from by
            simp [StandardParkingStrategy.can_park, VehicleFactory.create_vehicle]
            omega)]
        exact ⟨rfl, rfl⟩

/-- `park_vehicle` never changes capacities, level, the initialized flag or
either pool's slot count. -/
theorem park_shape (s : ParkingLot) (reg mk md c : String) (e m : Bool) :
    (s.park_vehicle reg mk md c e m).1.level = s.level ∧
    (s.park_vehicle reg mk md c e m).1.regular_capacity = s.regular_capacity ∧
    (s.park_vehicle reg mk md c e m).1.ev_capacity = s.ev_capacity ∧
    (s.park_vehicle reg mk md c e m).1.regular_slots.length = s.regular_slots.length ∧
    (s.park_vehicle reg mk md c e m).1.ev_slots.length = s.ev_slots.length ∧
    (s.park_vehicle reg mk md c e m).1.is_initialized = s.is_initialized := by
  unfold ParkingLot.park_vehicle
  split_ifs <;> simp [List.length_set]

/-- `remove_vehicle` never changes capacities, level, the initialized flag or
either pool's slot count. -/
theorem remove_shape (s : ParkingLot) (n : Int) (ev : Bool) :
    (s.remove_vehicle n ev).1.level = s.level ∧
    (s.remove_vehicle n ev).1.regular_capacity = s.regular_capacity ∧
    (s.remove_vehicle n ev).1.ev_capacity = s.ev_capacity ∧
    (s.remove_vehicle n ev).1.regular_slots.length = s.regular_slots.length ∧
    (s.remove_vehicle n ev).1.ev_slots.length = s.ev_slots.length ∧
    (s.remove_vehicle n ev).1.is_initialized = s.is_initialized := by
  by_cases h : valid_removal s n ev
  · obtain ⟨v, hv, heq⟩ := remove_valid h
    rw [heq]
    cases ev <;> simp [List.length_set]
  · rw [remove_not_valid h]
    exact ⟨rfl, rfl, rfl, rfl, rfl, rfl⟩

/-- Every reachable state satisfies `WF`. -/
theorem reachable_wf {s : ParkingLot} (h : Reachable s) : WF s := by
  induction h with
  | init => exact ⟨rfl, rfl⟩
  | create s rc ec lv _ _ =>
    exact ⟨by simp [ParkingLot.create_parking_lot],
           by simp [ParkingLot.create_parking_lot]⟩
  | park s reg mk md c e m _ ih =>
    obtain ⟨_, h2, h3, h4, h5, _⟩ := park_shape s reg mk md c e m
    exact ⟨by rw [h4, h2]; exact ih.1, by rw [h5, h3]; exact ih.2⟩
  | remove s n ev _ ih =>
    obtain ⟨_, h2, h3, h4, h5, _⟩ := remove_shape s n ev
    exact ⟨by rw [h4, h2]; exact ih.1, by rw [h5, h3]; exact ih.2⟩

/-- The only reachable state with the flag still down is the fresh lot:
`create_parking_lot` raises the flag for good, and the two other mutators
leave an uncreated lot untouched. -/
theorem reachable_uninitialized_eq_init {s : ParkingLot} (h : Reachable s)
    (huninit : s.is_initialized = false) : s = ParkingLot.init := by
  induction h with
  | init => rfl
  | create s rc ec lv _ _ =>
    simp [ParkingLot.create_parking_lot] at huninit
  | park s reg mk md c e m _ ih =>
    obtain ⟨_, _, _, _, _, h6⟩ := park_shape s reg mk md c e m
    have hs : s.is_initialized = false := by rw [← h6]; exact huninit
    have := ih hs
    subst this
    rw [park_not_initialized hs]
  | remove s n ev _ ih =>
    obtain ⟨_, _, _, _, _, h6⟩ := remove_shape s n ev
    have hs : s.is_initialized = false := by rw [← h6]; exact huninit
    have := ih hs
    subst this
    have hnv : ¬ valid_removal ParkingLot.init n ev := by
      intro hv
      obtain ⟨h1, h2, _⟩ := hv
      cases ev <;> simp [ParkingLot.init] at h2 <;> omega
    rw [remove_not_valid hnv]

/-! The claims. -/

/-- C1 (amended): for an initialized-or-not lot, whenever the target slot of
`remove_vehicle` is in range and occupied the slot is cleared and the call
returns `True` — a bare success indicator, not the removed `Vehicle` value,
whose registration appears only in the `VEHICLE_REMOVED` event message; on
any other input the call returns `False` with a `REMOVAL_FAILED` event. -/
theorem remove_returns_success_flag (s : ParkingLot) (n : Int) (ev : Bool) :
    (valid_removal s n ev →
      ∃ v : Vehicle,
        (if ev then s.ev_slots else s.regular_slots).getD (n - 1).toNat none = some v ∧
        s.remove_vehicle n ev =
          ((if ev then { s with ev_slots :=
              (if ev then s.ev_slots else s.regular_slots).set (n - 1).toNat none }
            else { s with regular_slots :=
              (if ev then s.ev_slots else s.regular_slots).set (n - 1).toNat none }),
           true,
           [(ParkingEventType.VEHICLE_REMOVED,
             "Slot number " ++ toString n ++ " (" ++ (if ev then "EV" else "regular") ++
             ") is now free - was " ++ v.regnum)])) ∧
    (¬ valid_removal s n ev →
      s.remove_vehicle n ev = (s, false,
        [(ParkingEventType.REMOVAL_FAILED,
          "Unable to remove vehicle from " ++ (if ev then "EV" else "regular") ++
          " slot " ++ toString n)])) :=
  ⟨fun h => remove_valid h, fun h => remove_not_valid h⟩

/-- C1 counterexample: two lots whose slot-1 occupants differ produce the
same `remove_vehicle` return value (`True`), so the return value cannot be
the removed Vehicle itself — it is merely a success indicator. -/
theorem remove_result_not_vehicle_valued :
    (ParkingLot.mk 1 1 0 [some (Vehicle.mk "AAA" "M1" "D1" "Red" false false 0)] [] true
        |>.remove_vehicle 1 false).2.1 =
      (ParkingLot.mk 1 1 0 [some (Vehicle.mk "BBB" "M2" "D2" "Blue" false false 0)] [] true
        |>.remove_vehicle 1 false).2.1 ∧
    (ParkingLot.mk 1 1 0 [some (Vehicle.mk "AAA" "M1" "D1" "Red" false false 0)] [] true
        |>.regular_slots.getD 0 none) ≠
      (ParkingLot.mk 1 1 0 [some (Vehicle.mk "BBB" "M2" "D2" "Blue" false false 0)] [] true
        |>.regular_slots.getD 0 none) := by
  decide

/-- C1 witness: a concrete occupied slot, removed. -/
theorem remove_returns_success_flag_witness :
    valid_removal
      (ParkingLot.mk 1 1 0 [some (Vehicle.mk "AAA" "M1" "D1" "Red" false false 0)] [] true)
      1 false ∧
    ((ParkingLot.mk 1 1 0 [some (Vehicle.mk "AAA" "M1" "D1" "Red" false false 0)] [] true
      |>.remove_vehicle 1 false).2.1 = true) :=
  ⟨by decide, by
    obtain ⟨v, hv, heq⟩ :=
      (remove_returns_success_flag
        (ParkingLot.mk 1 1 0 [some (Vehicle.mk "AAA" "M1" "D1" "Red" false false 0)] [] true)
        1 false).1 (by decide)
    rw [heq]⟩

/-- C2 (amended): on a lot on which `create_parking_lot` has never been
called (reachable, flag down), `park_vehicle` fails with the NotInitialized
failure ("Please create parking lot first") and `remove_vehicle` also fails
without touching the state — but with the same InvalidSlot/`REMOVAL_FAILED`
failure used for an out-of-range or empty slot, because `remove_vehicle`
never checks initialization. -/
theorem uninitialized_park_and_remove_fail (s : ParkingLot) (h : Reachable s)
    (huninit : s.is_initialized = false) :
    (∀ (reg mk md c : String) (e m : Bool),
      s.park_vehicle reg mk md c e m =
        (s, -1, [(ParkingEventType.PARKING_FAILED, "Please create parking lot first")])) ∧
    (∀ (n : Int) (ev : Bool),
      s.remove_vehicle n ev = (s, false,
        [(ParkingEventType.REMOVAL_FAILED,
          "Unable to remove vehicle from " ++ (if ev then "EV" else "regular") ++
          " slot " ++ toString n)])) := by
  have hs := reachable_uninitialized_eq_init h huninit
  subst hs
  constructor
  · intro reg mk md c e m
    exact park_not_initialized rfl reg mk md c e m
  · intro n ev
    have hnv : ¬ valid_removal ParkingLot.init n ev := by
      intro hv
      obtain ⟨h1, h2, _⟩ := hv
      cases ev <;> simp [ParkingLot.init] at h2 <;> omega
    exact remove_not_valid hnv

/-- C2 counterexample: on the fresh lot, the failure `remove_vehicle`
produces is byte-identical to the InvalidSlot failure on an initialized lot
with the same bad slot, and is not the NotInitialized failure message. -/
theorem uninitialized_remove_same_failure_as_invalid_slot :
    (ParkingLot.init.remove_vehicle 1 false).2 =
      ((ParkingLot.init.create_parking_lot 0 0 1).1.remove_vehicle 1 false).2 ∧
    (ParkingLot.init.remove_vehicle 1 false).2.2 =
      [(ParkingEventType.REMOVAL_FAILED, "Unable to remove vehicle from regular slot 1")] ∧
    (ParkingLot.init.remove_vehicle 1 false).2.2 ≠
      [(ParkingEventType.REMOVAL_FAILED, "Please create parking lot first")] := by
  decide

/-- C2 witness: the fresh lot. -/
theorem uninitialized_park_and_remove_fail_witness :
    ParkingLot.init.is_initialized = false ∧
    (ParkingLot.init.park_vehicle "A" "B" "C" "D" false false).2.1 = -1 :=
  ⟨rfl, by
    rw [(uninitialized_park_and_remove_fail ParkingLot.init Reachable.init rfl).1
      "A" "B" "C" "D" false false]⟩

/-- C3 (amended): `create_parking_lot` accepts negative capacities without
failing: it unconditionally transitions to the initialized state, records
the given (possibly negative) capacity and level, and builds an empty slot
sequence for a negative pool (Python `[None] * n = []` for `n < 0`), so
that pool simply never accepts a vehicle (every park into it fails as
"full"). -/
theorem negative_capacity_accepted (s : ParkingLot) (rc ec lv : Int) :
    ((s.create_parking_lot rc ec lv).1.is_initialized = true ∧
     (s.create_parking_lot rc ec lv).1.regular_capacity = rc ∧
     (s.create_parking_lot rc ec lv).1.ev_capacity = ec ∧
     (s.create_parking_lot rc ec lv).1.level = lv) ∧
    (rc < 0 →
      (s.create_parking_lot rc ec lv).1.regular_slots = [] ∧
      ∀ (reg mk md c : String) (m : Bool),
        (s.create_parking_lot rc ec lv).1.park_vehicle reg mk md c false m =
          ((s.create_parking_lot rc ec lv).1, -1,
           [(ParkingEventType.PARKING_FAILED, "Sorry, regular parking lot is full")])) ∧
    (ec < 0 →
      (s.create_parking_lot rc ec lv).1.ev_slots = [] ∧
      ∀ (reg mk md c : String) (m : Bool),
        (s.create_parking_lot rc ec lv).1.park_vehicle reg mk md c true m =
          ((s.create_parking_lot rc ec lv).1, -1,
           [(ParkingEventType.PARKING_FAILED, "Sorry, EV parking lot is full")])) := by
  refine ⟨⟨rfl, rfl, rfl, rfl⟩, ?_, ?_⟩
  · intro hrc
    have hslots : (s.create_parking_lot rc ec lv).1.regular_slots = [] := by
      simp [ParkingLot.create_parking_lot]
      omega
    refine ⟨hslots, ?_⟩
    intro reg mk md c m
    unfold ParkingLot.park_vehicle
    rw [if_neg (by simp [ParkingLot.create_parking_lot])]
    rw [if_neg (show ¬ (VehicleFactory.create_vehicle reg mk md c false m).is_electric = true
      from by simp [VehicleFactory.create_vehicle])]
    rw [if_neg (show ¬ StandardParkingStrategy.can_park
      (VehicleFactory.create_vehicle reg mk md c false m)
      (occupied_count (s.create_parking_lot rc ec lv).1.regular_slots)
      (s.create_parking_lot rc ec lv).1.regular_capacity = true from by
        rw [hslots]
        simp [StandardParkingStrategy.can_park, VehicleFactory.create_vehicle,
          occupied_count, ParkingLot.create_parking_lot]
        omega)]
  · intro hec
    have hslots : (s.create_parking_lot rc ec lv).1.ev_slots = [] := by
      simp [ParkingLot.create_parking_lot]
      omega
    refine ⟨hslots, ?_⟩
    intro reg mk md c m
    unfold ParkingLot.park_vehicle
    rw [if_neg (by simp [ParkingLot.create_parking_lot])]
    rw [if_pos (show (VehicleFactory.create_vehicle reg mk md c true m).is_electric = true
      from rfl)]
    rw [if_neg (show ¬ EVParkingStrategy.can_park
      (VehicleFactory.create_vehicle reg mk md c true m)
      (occupied_count (s.create_parking_lot rc ec lv).1.ev_slots)
      (s.create_parking_lot rc ec lv).1.ev_capacity = true from by
        rw [hslots]
        simp [EVParkingStrategy.can_park, VehicleFactory.create_vehicle,
          occupied_count, ParkingLot.create_parking_lot]
        omega)]

/-- C3 counterexample: `create_parking_lot(-3, 2, 1)` does not fail — the
lot transitions to the initialized state with the negative capacity
recorded. -/
theorem negative_capacity_not_rejected :
    (ParkingLot.init.create_parking_lot (-3) 2 1).1.is_initialized = true ∧
    (ParkingLot.init.create_parking_lot (-3) 2 1).1.regular_capacity = -3 := by
  decide

/-- C3 witness: both capacities negative. -/
theorem negative_capacity_accepted_witness :
    ((-1 : Int) < 0) ∧
    (ParkingLot.init.create_parking_lot (-1) (-1) 1).1.regular_slots = [] ∧
    (ParkingLot.init.create_parking_lot (-1) (-1) 1).1.ev_slots = [] :=
  ⟨by decide,
   ((negative_capacity_accepted ParkingLot.init (-1) (-1) 1).2.1 (by decide)).1,
   ((negative_capacity_accepted ParkingLot.init (-1) (-1) 1).2.2 (by decide)).1⟩

/-- C7: removal from an already-empty or out-of-range slot fails with the
InvalidSlot failure (`REMOVAL_FAILED` event), emits no `VEHICLE_REMOVED`
event and leaves the state unchanged; repeating the identical call fails
identically. -/
theorem invalid_removal_idempotent (s : ParkingLot) (n : Int) (ev : Bool)
    (h : ¬ valid_removal s n ev) :
    s.remove_vehicle n ev = (s, false,
      [(ParkingEventType.REMOVAL_FAILED,
        "Unable to remove vehicle from " ++ (if ev then "EV" else "regular") ++
        " slot " ++ toString n)]) ∧
    (s.remove_vehicle n ev).1.remove_vehicle n ev = (s, false,
      [(ParkingEventType.REMOVAL_FAILED,
        "Unable to remove vehicle from " ++ (if ev then "EV" else "regular") ++
        " slot " ++ toString n)]) ∧
    ∀ msg : String,
      (ParkingEventType.VEHICLE_REMOVED, msg) ∉ (s.remove_vehicle n ev).2.2 := by
  have h1 := remove_not_valid h
  refine ⟨h1, ?_, ?_⟩
  · rw [show (s.remove_vehicle n ev).1 = s by rw [h1]]
    exact h1
  · intro msg hmem
    rw [h1] at hmem
    simp at hmem

/-- C7 witness: removing from the empty slot 1 of a freshly created lot. -/
theorem invalid_removal_idempotent_witness :
    ¬ valid_removal (ParkingLot.init.create_parking_lot 2 0 1).1 1 false ∧
    ((ParkingLot.init.create_parking_lot 2 0 1).1.remove_vehicle 1 false).2.1 = false :=
  ⟨by decide, by
    rw [(invalid_removal_idempotent (ParkingLot.init.create_parking_lot 2 0 1).1 1 false
      (by decide)).1]⟩

/-- C8: the `charge` setter clamps every written value into [0, 100]
(`150 ↦ 100`, `-5 ↦ 0`) and a factory-created electric vehicle's charge
defaults to 0. -/
theorem charge_clamped_and_defaults_zero :
    (∀ (v : Vehicle) (value : Int),
      (ElectricVehicle.set_charge v value).charge = max 0 (min 100 value) ∧
      0 ≤ (ElectricVehicle.set_charge v value).charge ∧
      (ElectricVehicle.set_charge v value).charge ≤ 100) ∧
    (∀ v : Vehicle, (ElectricVehicle.set_charge v 150).charge = 100) ∧
    (∀ v : Vehicle, (ElectricVehicle.set_charge v (-5)).charge = 0) ∧
    (∀ (reg mk md c : String) (m : Bool),
      (VehicleFactory.create_vehicle reg mk md c true m).charge = 0) := by
  refine ⟨fun v value => ⟨rfl, ?_, ?_⟩, fun v => ?_, fun v => ?_,
    fun reg mk md c m => rfl⟩
  · simp [ElectricVehicle.set_charge]
  · simp [ElectricVehicle.set_charge]
  · show max (0 : Int) (min 100 150) = 100
    decide
  · show max (0 : Int) (min 100 (-5)) = 0
    decide

/-- C9: whenever `park_vehicle` returns `-1` or `remove_vehicle` returns
`False`, the observable state (both slot lists, both capacities, level,
initialized flag — the whole record) is unchanged. -/
theorem failed_mutations_preserve_state (s : ParkingLot)
    (reg mk md c : String) (e m : Bool) (n : Int) (ev : Bool) :
    ((s.park_vehicle reg mk md c e m).2.1 = -1 → (s.park_vehicle reg mk md c e m).1 = s) ∧
    ((s.remove_vehicle n ev).2.1 = false → (s.remove_vehicle n ev).1 = s) := by
  constructor
  · intro hfail
    rcases park_fail_or_success s reg mk md c e m with ⟨_, hstate⟩ | ⟨hinit, hcan, hfind⟩
    · exact hstate
    · exfalso
      rw [park_run reg mk md c e m hinit hcan hfind] at hfail
      cases e with
      | true =>
        simp at hfail
        have hf : 0 ≤ find_empty_slot s.ev_slots := by simpa using hfind
        omega
      | false =>
        simp at hfail
        have hf : 0 ≤ find_empty_slot s.regular_slots := by simpa using hfind
        omega
  · intro hfail
    by_cases hv : valid_removal s n ev
    · obtain ⟨v, _, heq⟩ := remove_valid hv
      rw [heq] at hfail
      simp at hfail
    · rw [remove_not_valid hv]

/-- C9 witness: both failures on the fresh lot. -/
theorem failed_mutations_preserve_state_witness :
    (ParkingLot.init.park_vehicle "A" "B" "C" "D" false false).2.1 = -1 ∧
    (ParkingLot.init.remove_vehicle 1 false).2.1 = false ∧
    (ParkingLot.init.park_vehicle "A" "B" "C" "D" false false).1 = ParkingLot.init ∧
    (ParkingLot.init.remove_vehicle 1 false).1 = ParkingLot.init :=
  ⟨by decide, by decide,
   (failed_mutations_preserve_state ParkingLot.init "A" "B" "C" "D" false false 1 false).1
     (by decide),
   (failed_mutations_preserve_state ParkingLot.init "A" "B" "C" "D" false false 1 false).2
     (by decide)⟩

/-- C10: the query operations (`find_slot_by_registration`,
`find_vehicles_by_color`, `get_all_regular_vehicles`, `get_all_ev_vehicles`)
leave the lot state — slot lists, capacities, level, initialized flag —
exactly as it was. -/
theorem queries_preserve_state (s : ParkingLot) (registration color : String) :
    (s.find_slot_by_registration registration).1 = s ∧
    (s.find_vehicles_by_color color).1 = s ∧
    s.get_all_regular_vehicles.1 = s ∧
    s.get_all_ev_vehicles.1 = s :=
  ⟨rfl, rfl, rfl, rfl⟩

/-- C4: on every reachable initialized lot whose target pool (EV for
electric, regular otherwise) has an empty slot, `park_vehicle` writes the
vehicle into the lowest-index empty slot of that pool (strict first-fit:
every smaller index is occupied) and returns that 0-based index plus one. -/
theorem park_first_fit (s : ParkingLot) (hreach : Reachable s)
    (hinit : s.is_initialized = true) (reg mk md c : String) (e m : Bool)
    (hempty : none ∈ (if e then s.ev_slots else s.regular_slots)) :
    ∃ k : Nat,
      (if e then s.ev_slots else s.regular_slots).getD k none = none ∧
      (∀ j < k, ((if e then s.ev_slots else s.regular_slots).getD j none).isSome) ∧
      (s.park_vehicle reg mk md c e m).2.1 = (k : Int) + 1 ∧
      (s.park_vehicle reg mk md c e m).1 =
        (if e then { s with ev_slots :=
            (s.ev_slots.set k (some (VehicleFactory.create_vehicle reg mk md c e m))) }
         else { s with regular_slots :=
            (s.regular_slots.set k (some (VehicleFactory.create_vehicle reg mk md c e m))) }) := by
  have hwf := reachable_wf hreach
  have hfind := find_empty_slot_nonneg_of_mem hempty
  obtain ⟨hlt, hnone, hprev⟩ := find_empty_slot_spec hfind
  have hocc := occupied_count_lt_length_of_mem hempty
  have hcan : (occupied_count (if e then s.ev_slots else s.regular_slots) : Int) <
      (if e then s.ev_capacity else s.regular_capacity) := by
    cases e with
    | true =>
      have hlen := hwf.2
      have hocc' : occupied_count s.ev_slots < s.ev_slots.length := hocc
      show (occupied_count s.ev_slots : Int) < s.ev_capacity
      omega
    | false =>
      have hlen := hwf.1
      have hocc' : occupied_count s.regular_slots < s.regular_slots.length := hocc
      show (occupied_count s.regular_slots : Int) < s.regular_capacity
      omega
  have heq := park_run reg mk md c e m hinit hcan hfind
  refine ⟨(find_empty_slot (if e then s.ev_slots else s.regular_slots)).toNat,
    hnone, hprev, ?_, ?_⟩
  · rw [heq]
    cases e with
    | true =>
      have hf : 0 ≤ find_empty_slot s.ev_slots := hfind
      show find_empty_slot s.ev_slots + 1 =
        ((find_empty_slot s.ev_slots).toNat : Int) + 1
      omega
    | false =>
      have hf : 0 ≤ find_empty_slot s.regular_slots := hfind
      show find_empty_slot s.regular_slots + 1 =
        ((find_empty_slot s.regular_slots).toNat : Int) + 1
      omega
  · rw [heq]
    cases e with
    | true => rfl
    | false => rfl

/-- C4 witness: first park on a freshly created 2+1 lot takes regular
slot 1. -/
theorem park_first_fit_witness :
    ((ParkingLot.init.create_parking_lot 2 1 5).1.is_initialized = true ∧
     none ∈ (ParkingLot.init.create_parking_lot 2 1 5).1.regular_slots) ∧
    ∃ k : Nat,
      (ParkingLot.init.create_parking_lot 2 1 5).1.regular_slots.getD k none = none ∧
      (∀ j < k,
        ((ParkingLot.init.create_parking_lot 2 1 5).1.regular_slots.getD j none).isSome) ∧
      ((ParkingLot.init.create_parking_lot 2 1 5).1.park_vehicle
        "A" "B" "C" "D" false false).2.1 = (k : Int) + 1 ∧
      ((ParkingLot.init.create_parking_lot 2 1 5).1.park_vehicle
        "A" "B" "C" "D" false false).1 =
        { (ParkingLot.init.create_parking_lot 2 1 5).1 with regular_slots :=
            ((ParkingLot.init.create_parking_lot 2 1 5).1.regular_slots.set k
              (some (VehicleFactory.create_vehicle "A" "B" "C" "D" false false))) } :=
  ⟨⟨rfl, by decide⟩,
   park_first_fit (ParkingLot.init.create_parking_lot 2 1 5).1
     (Reachable.create ParkingLot.init 2 1 5 Reachable.init) rfl
     "A" "B" "C" "D" false false (by decide)⟩

/-- C5 (amended): if no vehicle with the given registration is already
parked in either pool and `park_vehicle` succeeds returning slot number
`n`, then an immediately following `find_slot_by_registration` on that
registration finds it: slot number `n` in the pool the vehicle was parked
in ("EV" for electric, "regular" otherwise). -/
theorem park_find_round_trip (s : ParkingLot) (reg mk md c : String) (e m : Bool)
    (n : Int) (hreg : no_registration s.regular_slots reg)
    (hev : no_registration s.ev_slots reg)
    (hpark : (s.park_vehicle reg mk md c e m).2.1 = n) (hsucc : n ≠ -1) :
    ((s.park_vehicle reg mk md c e m).1.find_slot_by_registration reg).2 =
      some (n, if e then "EV" else "regular") := by
  rcases park_fail_or_success s reg mk md c e m with ⟨hfail, _⟩ | ⟨hinit, hcan, hfind⟩
  · exact absurd (by rw [← hpark, hfail]) hsucc
  · have heq := park_run reg mk md c e m hinit hcan hfind
    obtain ⟨hlt, _, _⟩ := find_empty_slot_spec hfind
    rw [heq] at hpark ⊢
    cases e with
    | true =>
      have hf : 0 ≤ find_empty_slot s.ev_slots := hfind
      have hlt' : (find_empty_slot s.ev_slots).toNat < s.ev_slots.length := hlt
      have hn : find_empty_slot s.ev_slots + 1 = n := hpark
      show (ParkingLot.find_slot_by_registration
        { s with ev_slots :=
            (s.ev_slots.set (find_empty_slot s.ev_slots).toNat
              (some (VehicleFactory.create_vehicle reg mk md c true m))) } reg).2 =
        some (n, "EV")
      unfold ParkingLot.find_slot_by_registration
      rw [find_in_slots_eq_none hreg]
      rw [find_in_slots_set hev _ hlt'
        (VehicleFactory.create_vehicle reg mk md c true m) rfl]
      have hcast : ((find_empty_slot s.ev_slots).toNat : Int) + 1 = n := by omega
      show some (((find_empty_slot s.ev_slots).toNat : Int) + 1, "EV") = some (n, "EV")
      rw [hcast]
    | false =>
      have hf : 0 ≤ find_empty_slot s.regular_slots := hfind
      have hlt' : (find_empty_slot s.regular_slots).toNat < s.regular_slots.length := hlt
      have hn : find_empty_slot s.regular_slots + 1 = n := hpark
      show (ParkingLot.find_slot_by_registration
        { s with regular_slots :=
            (s.regular_slots.set (find_empty_slot s.regular_slots).toNat
              (some (VehicleFactory.create_vehicle reg mk md c false m))) } reg).2 =
        some (n, "regular")
      unfold ParkingLot.find_slot_by_registration
      rw [find_in_slots_set hreg _ hlt'
        (VehicleFactory.create_vehicle reg mk md c false m) rfl]
      have hcast : ((find_empty_slot s.regular_slots).toNat : Int) + 1 = n := by omega
      show some (((find_empty_slot s.regular_slots).toNat : Int) + 1, "regular") =
        some (n, "regular")
      rw [hcast]

/-- C5 counterexample: registrations are not unique. Parking "R1" twice in
a 2-slot lot, the second park returns slot 2, yet `find_slot_by_registration`
immediately afterwards returns slot 1 (the first scan hit), so the claimed
unconditional round-trip fails. -/
theorem park_find_round_trip_duplicate_registration :
    (((ParkingLot.init.create_parking_lot 2 0 1).1.park_vehicle
        "R1" "M" "D" "Red" false false).1.park_vehicle
        "R1" "M" "D" "Blue" false false).2.1 = 2 ∧
    ((((ParkingLot.init.create_parking_lot 2 0 1).1.park_vehicle
        "R1" "M" "D" "Red" false false).1.park_vehicle
        "R1" "M" "D" "Blue" false false).1.find_slot_by_registration "R1").2 =
      some (1, "regular") ∧
    (1 : Int) ≠ 2 := by
  decide

/-- C5 witness: a fresh registration round-trips. -/
theorem park_find_round_trip_witness :
    (((ParkingLot.init.create_parking_lot 1 0 1).1.park_vehicle
        "R" "M" "D" "Red" false false).1.find_slot_by_registration "R").2 =
      some (1, if false then "EV" else "regular") :=
  park_find_round_trip (ParkingLot.init.create_parking_lot 1 0 1).1
    "R" "M" "D" "Red" false false 1
    (by intro v hv; simp [ParkingLot.create_parking_lot, List.mem_replicate] at hv)
    (by intro v hv; simp [ParkingLot.create_parking_lot] at hv)
    (by decide) (by decide)

/-- C6 (amended): in every reachable state each pool's `occupied_count` is
at most its number of slots, which equals the recorded capacity clamped at
zero (`capacity.toNat` — equal to the capacity itself whenever every
`create_parking_lot` call used a non-negative capacity); and every
successful removal clears exactly the targeted index, leaving a hole: the
other pool and every other index of the target pool are unchanged. -/
theorem reachable_occupancy_and_removal_stability (s : ParkingLot)
    (h : Reachable s) :
    (occupied_count s.regular_slots ≤ s.regular_slots.length ∧
     s.regular_slots.length = s.regular_capacity.toNat) ∧
    (occupied_count s.ev_slots ≤ s.ev_slots.length ∧
     s.ev_slots.length = s.ev_capacity.toNat) ∧
    (∀ (n : Int) (ev : Bool), (s.remove_vehicle n ev).2.1 = true →
      ((if ev then (s.remove_vehicle n ev).1.ev_slots
        else (s.remove_vehicle n ev).1.regular_slots) =
        ((if ev then s.ev_slots else s.regular_slots).set (n - 1).toNat none)) ∧
      ((if ev then (s.remove_vehicle n ev).1.regular_slots
        else (s.remove_vehicle n ev).1.ev_slots) =
        (if ev then s.regular_slots else s.ev_slots)) ∧
      ((if ev then (s.remove_vehicle n ev).1.ev_slots
        else (s.remove_vehicle n ev).1.regular_slots).getD (n - 1).toNat none = none) ∧
      (∀ j : Nat, j ≠ (n - 1).toNat →
        (if ev then (s.remove_vehicle n ev).1.ev_slots
         else (s.remove_vehicle n ev).1.regular_slots).getD j none =
          (if ev then s.ev_slots else s.regular_slots).getD j none)) := by
  have hwf := reachable_wf h
  refine ⟨⟨occupied_count_le_length _, hwf.1⟩, ⟨occupied_count_le_length _, hwf.2⟩, ?_⟩
  intro n ev htrue
  by_cases hv : valid_removal s n ev
  · obtain ⟨v, hvv, heq⟩ := remove_valid hv
    rw [heq]
    cases ev with
    | true =>
      exact ⟨rfl, rfl, getD_set_self _ _, fun j hj => getD_set_ne _ _ _ _ hj⟩
    | false =>
      exact ⟨rfl, rfl, getD_set_self _ _, fun j hj => getD_set_ne _ _ _ _ hj⟩
  · rw [remove_not_valid hv] at htrue
    simp at htrue

/-- C6 counterexample: the claim's occupancy bound is stated against the
recorded capacity, but `create_parking_lot(-1, 0, 5)` is a public call that
records capacity `-1`, after which `occupied_count = 0 > -1` fails the
claimed `occupied_count <= capacity`. -/
theorem reachable_negative_capacity_occupancy :
    Reachable (ParkingLot.init.create_parking_lot (-1) 0 5).1 ∧
    ¬ ((occupied_count (ParkingLot.init.create_parking_lot (-1) 0 5).1.regular_slots : Int) ≤
        (ParkingLot.init.create_parking_lot (-1) 0 5).1.regular_capacity) :=
  ⟨Reachable.create ParkingLot.init (-1) 0 5 Reachable.init, by decide⟩

/-- C6 witness: occupancy bound on a concrete reachable state. -/
theorem reachable_occupancy_and_removal_stability_witness :
    occupied_count (ParkingLot.init.create_parking_lot 2 1 1).1.regular_slots ≤
      (ParkingLot.init.create_parking_lot 2 1 1).1.regular_slots.length ∧
    (ParkingLot.init.create_parking_lot 2 1 1).1.regular_slots.length =
      (ParkingLot.init.create_parking_lot 2 1 1).1.regular_capacity.toNat :=
  (reachable_occupancy_and_removal_stability (ParkingLot.init.create_parking_lot 2 1 1).1
    (Reachable.create ParkingLot.init 2 1 1 Reachable.init)).1
